import Mathlib

/-!
Shallow embedding of the nRF52 IEEE 802.15.4 radio driver
(`chips/nrf52/src/ieee802154_radio.rs`), restricted to the
software-visible engine state and the algorithmic parts of the driver:
the `transmit` entry point, the CCABUSY (CSMA-CA backoff) and END
branches of `handle_interrupt`, the channel enumeration, the
configuration facade, and the xorshift pseudo-random generator.

Hardware registers are modelled only where the driver's observable
behaviour depends on them: the FREQUENCY register is mirrored as a
field of the engine state (written by `radio_initialize`, here
`radio_reinit`), and the read-back STATE and CRCSTATUS registers are
inputs to the END-event step.  Machine integers are modelled as `Nat`
with explicit `% 2 ^ 32` / `% 256` where the Rust code wraps or casts.
Callbacks to the TX/RX clients are modelled as emitted events; the
clients are assumed registered (the driver's `OptionalCell.map` calls
are no-ops when no client is set, a configuration none of the claims
exercises).  A `.get().unwrap()` on an empty buffer slot, or an
out-of-bounds index, panics in the source; the model returns `none`
there.
-/

namespace Nrf52Radio

/-! ## Constants (`ieee802154_radio.rs` lines 26-44) -/

def IEEE802154_PAYLOAD_LENGTH : Nat := 255
def IEEE802154_BACKOFF_PERIOD : Nat := 320
def IEEE802154_MAX_POLLING_ATTEMPTS : Nat := 4
def IEEE802154_MIN_BE : Nat := 3
def IEEE802154_MAX_BE : Nat := 5
def MIMIC_PSDU_OFFSET : Nat := 1

/-- Modelled from the spec: `radio::PSDU_OFFSET` is a constant of the
kernel's radio HIL (not under `src/`); the spec fixes it to 2. -/
def PSDU_OFFSET : Nat := 2

/-- Modelled from the spec: `radio::MFR_SIZE` is a constant of the
kernel's radio HIL (not under `src/`); the spec fixes it to 2 (the
two-byte CRC footer). -/
def MFR_SIZE : Nat := 2

/-! Modelled from the spec: the `nrf5x::constants::RADIO_STATE_*`
values live in the sibling `nrf5x` crate (not under `src/`); the spec
lists them as 0 = Disabled, 1 = RxRu, 2 = RxIdle, 3 = Rx,
4 = RxDisabled, 9 = TxRu, 10 = TxIdle, 11 = Tx, 12 = TxDisabled. -/

def RADIO_STATE_DISABLE : Nat := 0
def RADIO_STATE_RXRU : Nat := 1
def RADIO_STATE_RXIDLE : Nat := 2
def RADIO_STATE_RX : Nat := 3
def RADIO_STATE_RXDISABLE : Nat := 4
def RADIO_STATE_TXRU : Nat := 9
def RADIO_STATE_TXIDLE : Nat := 10
def RADIO_STATE_TX : Nat := 11
def RADIO_STATE_TXDISABLE : Nat := 12

/-! ## The channel enumeration (`RadioChannel`, lines 48-115) -/

/-- The sixteen IEEE 802.15.4 channels 11-26.  In the source the enum
discriminant is the frequency offset above 2400 MHz. -/
inductive RadioChannel where
  | DataChannel11
  | DataChannel12
  | DataChannel13
  | DataChannel14
  | DataChannel15
  | DataChannel16
  | DataChannel17
  | DataChannel18
  | DataChannel19
  | DataChannel20
  | DataChannel21
  | DataChannel22
  | DataChannel23
  | DataChannel24
  | DataChannel25
  | DataChannel26
  deriving DecidableEq, Repr

/-- The enum discriminant of `RadioChannel` (`DataChannel11 = 5`, ...,
`DataChannel26 = 80`): this is the value `channel as u32` used by
`ieee802154_set_channel_freq`. -/
def RadioChannel.discriminant : RadioChannel → Nat
  | .DataChannel11 => 5
  | .DataChannel12 => 10
  | .DataChannel13 => 15
  | .DataChannel14 => 20
  | .DataChannel15 => 25
  | .DataChannel16 => 30
  | .DataChannel17 => 35
  | .DataChannel18 => 40
  | .DataChannel19 => 45
  | .DataChannel20 => 50
  | .DataChannel21 => 55
  | .DataChannel22 => 60
  | .DataChannel23 => 65
  | .DataChannel24 => 70
  | .DataChannel25 => 75
  | .DataChannel26 => 80

/-- `RadioChannel::get_channel_index` (lines 69-88). -/
def RadioChannel.get_channel_index : RadioChannel → Nat
  | .DataChannel11 => 11
  | .DataChannel12 => 12
  | .DataChannel13 => 13
  | .DataChannel14 => 14
  | .DataChannel15 => 15
  | .DataChannel16 => 16
  | .DataChannel17 => 17
  | .DataChannel18 => 18
  | .DataChannel19 => 19
  | .DataChannel20 => 20
  | .DataChannel21 => 21
  | .DataChannel22 => 22
  | .DataChannel23 => 23
  | .DataChannel24 => 24
  | .DataChannel25 => 25
  | .DataChannel26 => 26

/-- `impl TryFrom<u8> for RadioChannel` (lines 91-115); the argument is
a `u8`, modelled as a `Nat` below 256. -/
def RadioChannel.tryFrom : Nat → Option RadioChannel
  | 11 => some .DataChannel11
  | 12 => some .DataChannel12
  | 13 => some .DataChannel13
  | 14 => some .DataChannel14
  | 15 => some .DataChannel15
  | 16 => some .DataChannel16
  | 17 => some .DataChannel17
  | 18 => some .DataChannel18
  | 19 => some .DataChannel19
  | 20 => some .DataChannel20
  | 21 => some .DataChannel21
  | 22 => some .DataChannel22
  | 23 => some .DataChannel23
  | 24 => some .DataChannel24
  | 25 => some .DataChannel25
  | 26 => some .DataChannel26
  | _ => none

/-! ## Error codes (`kernel::ErrorCode`, subset used by this driver) -/

inductive ErrorCode where
  | BUSY
  | SIZE
  | NOSUPPORT
  | FAIL
  deriving DecidableEq, Repr

/-! ## The engine state (`struct Radio`, lines 661-677)

Only the software-visible fields the claims depend on are carried:
the two buffer slots, the CSMA counters, the xorshift state, the
staged channel and the `transmitting` flag.  The mirrored `frequency`
field stands for the hardware FREQUENCY register, written only by
`radio_reinit` (the embedding of `radio_initialize`). -/

structure Radio where
  tx_buf : Option (List Nat)
  rx_buf : Option (List Nat)
  cca_count : Nat
  cca_be : Nat
  random_nonce : Nat
  channel : RadioChannel
  transmitting : Bool
  frequency : Nat
  deriving DecidableEq, Repr

/-- `Radio::new` (lines 686-704); the hardware FREQUENCY register
resets to 0. -/
def Radio.new : Radio :=
  { tx_buf := none
    rx_buf := none
    cca_count := 0
    cca_be := 0
    random_nonce := 0xDEADBEEF
    channel := .DataChannel26
    transmitting := false
    frequency := 0 }

/-- `ieee802154_set_channel_freq` (lines 979-983): writes the enum
discriminant into the FREQUENCY register. -/
def Radio.ieee802154_set_channel_freq (s : Radio) (channel : RadioChannel) : Radio :=
  { s with frequency := channel.discriminant }

/-- Embedding of `radio_initialize` (lines 903-931): of the register
programming sequence, only the FREQUENCY write (from the staged
channel) is visible in the modelled state; the trailing `rx()` call
moves each buffer out of and back into its slot (`set_dma_ptr`), a
net no-op on the modelled fields. -/
def Radio.radio_reinit (s : Radio) : Radio :=
  s.ieee802154_set_channel_freq s.channel

/-- `config_commit` (lines 1054-1057): `radio_off` touches only the
POWER register, then `radio_initialize` re-runs. -/
def Radio.config_commit (s : Radio) : Radio :=
  s.radio_reinit

/-- `get_channel` (lines 1082-1084). -/
def Radio.get_channel (s : Radio) : Nat :=
  s.channel.get_channel_index

/-- `set_channel` (lines 1102-1110): validates through
`RadioChannel::try_from` and stages the channel; no register is
written. -/
def Radio.set_channel (s : Radio) (chan : Nat) : Except ErrorCode Unit × Radio :=
  match RadioChannel.tryFrom chan with
  | none => (.error .NOSUPPORT, s)
  | some res => (.ok (), { s with channel := res })

/-- `transmit` (lines 1140-1163).  The PHY length byte is written with
the Rust cast `(frame_len + radio::MFR_SIZE) as u8`, i.e. modulo 256.
The success path ends in `radio_off(); radio_initialize()`. -/
def Radio.transmit (s : Radio) (buf : List Nat) (frame_len : Nat) :
    Except (ErrorCode × List Nat) Unit × Radio :=
  if s.tx_buf.isSome || s.transmitting then
    (.error (.BUSY, buf), s)
  else if buf.length ≤ PSDU_OFFSET + frame_len then
    (.error (.SIZE, buf), s)
  else
    let buf2 := buf.set MIMIC_PSDU_OFFSET ((frame_len + MFR_SIZE) % 256)
    (.ok (),
      Radio.radio_reinit
        { s with
          tx_buf := some buf2
          transmitting := true
          cca_count := 0
          cca_be := IEEE802154_MIN_BE })

/-! ## The xorshift pseudo-random generator (lines 999-1006) -/

/-- One round of the 32-bit xorshift used by `random_nonce`:
`x ^= x << 13; x ^= x >> 17; x ^= x << 5` on `Wrapping<u32>`. -/
def xorshift32 (x : Nat) : Nat :=
  let x1 := x ^^^ ((x <<< 13) % 2 ^ 32)
  let x2 := x1 ^^^ (x1 >>> 17)
  x2 ^^^ ((x2 <<< 5) % 2 ^ 32)

/-- `random_nonce` (lines 999-1006): updates the stored state and
returns the new value. -/
def Radio.random_nonce_step (s : Radio) : Nat × Radio :=
  let v := xorshift32 s.random_nonce
  (v, { s with random_nonce := v })

/-! ## Interrupt handling (`handle_interrupt`, lines 768-878)

The READY / FRAMESTART / CCAIDLE branches only write hardware task
registers; the two branches with software-visible behaviour are
CCABUSY (the CSMA-CA backoff) and END (completion).  Each is modelled
as a step function from the engine state (plus, for END, the read-back
STATE and CRCSTATUS register values) to a successor state together
with the client callback it emits, if any. -/

deriving instance DecidableEq for Except

/-- A callback delivered to the TX or RX client. -/
inductive Callback where
  | send_done (buf : List Nat) (acked : Bool) (result : Except ErrorCode Unit)
  | receive (buf : List Nat) (frame_len : Nat) (crc_ok : Bool)
      (result : Except ErrorCode Unit)
  deriving DecidableEq, Repr

/-- The CCABUSY branch of `handle_interrupt` (lines 794-828).  If
`cca_count < IEEE802154_MAX_POLLING_ATTEMPTS` the attempt counter and
the backoff exponent are incremented (with no clamp) and a one-shot
alarm is scheduled for `random_nonce() & ((1 << cca_be) - 1)` backoff
periods, returned here as the third component; otherwise the TX fails:
`transmitting` clears and `send_done(tbuf, false, Err(BUSY))` goes to
the TX client.  `none` marks the source's unwrap panic on an empty
`tx_buf` slot. -/
def Radio.ccabusyEvent (s : Radio) :
    Option (Radio × Option Callback × Option Nat) :=
  if s.cca_count < IEEE802154_MAX_POLLING_ATTEMPTS then
    let s1 := { s with cca_count := s.cca_count + 1, cca_be := s.cca_be + 1 }
    let (n, s2) := s1.random_nonce_step
    let backoff_periods := n &&& ((1 <<< s2.cca_be) - 1)
    some (s2, none, some backoff_periods)
  else
    match s.tx_buf with
    | some tbuf =>
        some ({ s with transmitting := false, tx_buf := none },
          some (.send_done tbuf false (.error .BUSY)), none)
    | none => none

/-- Reading the length byte in the RX arm of the END branch
(line 862): `rbuf[MIMIC_PSDU_OFFSET] as usize - radio::MFR_SIZE` is an
unguarded `usize` subtraction; `none` marks the underflow (a panic
under Rust's overflow checks, a wrap to `2^64 - 1` or `2^64 - 2`
otherwise — either way not the `frame_len` of any frame). -/
def rxFrameLen (lenByte : Nat) : Option Nat :=
  if MFR_SIZE ≤ lenByte then some (lenByte - MFR_SIZE) else none

/-- The END branch of `handle_interrupt` (lines 831-876).  `stateReg`
and `crcReg` are the values read back from the STATE and CRCSTATUS
registers.  `result` is `Ok(())` when the CRCSTATUS bit (bit 0) is
set, else `Err(FAIL)`; the TX-family arm shadows it with `Ok(())`.
The RX-family arm passes `crcstatus.get() == 1` as the `crc_ok` flag.
Both arms end with `radio_off(); radio_initialize(); rx()`; of these
only the FREQUENCY write of `radio_initialize` is visible here
(`radio_reinit`).  `none` marks an unwrap panic (empty buffer slot,
length byte out of bounds, or the underflowing subtraction). -/
def Radio.endEvent (s : Radio) (stateReg crcReg : Nat) :
    Option (Radio × Option Callback) :=
  let result : Except ErrorCode Unit :=
    if crcReg % 2 = 1 then .ok () else .error .FAIL
  if stateReg = RADIO_STATE_TXRU ∨ stateReg = RADIO_STATE_TXIDLE ∨
      stateReg = RADIO_STATE_TXDISABLE ∨ stateReg = RADIO_STATE_TX then
    match s.tx_buf with
    | some tbuf =>
        let result : Except ErrorCode Unit := .ok ()
        some (Radio.radio_reinit { s with transmitting := false, tx_buf := none },
          some (.send_done tbuf false result))
    | none => none
  else if stateReg = RADIO_STATE_RXRU ∨ stateReg = RADIO_STATE_RXIDLE ∨
      stateReg = RADIO_STATE_RXDISABLE ∨ stateReg = RADIO_STATE_RX then
    match s.rx_buf with
    | some rbuf =>
        if MIMIC_PSDU_OFFSET < rbuf.length then
          match rxFrameLen (rbuf.getD MIMIC_PSDU_OFFSET 0) with
          | some frame_len =>
              some (Radio.radio_reinit { s with rx_buf := none },
                some (.receive rbuf frame_len (decide (crcReg = 1)) result))
          | none => none
        else none
    | none => none
  else
    some (Radio.radio_reinit s, none)

/-- Iterated CCABUSY events: the trace of a transmit attempt on a
peripheral that reports CCABUSY on every CCA, collecting the emitted
callbacks in order.  Between two CCABUSY events only the alarm
callback (`rx()`) and the READY branch run, neither of which touches
the modelled fields. -/
def Radio.ccabusySteps : Nat → Radio → Option (Radio × List Callback)
  | 0, s => some (s, [])
  | n + 1, s =>
    match s.ccabusyEvent with
    | none => none
    | some (s1, cb, _) =>
      match Radio.ccabusySteps n s1 with
      | none => none
      | some (s2, cbs) => some (s2, cb.toList ++ cbs)

/-! ## Shared helper lemmas -/

set_option maxRecDepth 4000 in
/-- An out-of-range `u8` channel value is rejected by
`RadioChannel::try_from`. -/
lemma tryFrom_eq_none_of_not_range :
    ∀ k, k < 256 → ¬(11 ≤ k ∧ k ≤ 26) → RadioChannel.tryFrom k = none := by
  decide

/-- Reading back the element just written by `List.set`. -/
lemma getD_set_self (l : List Nat) (n v : Nat) (h : n < l.length) :
    (l.set n v).getD n 0 = v := by
  rw [List.getD_eq_getElem _ 0 (by simpa using h)]
  simp [List.getElem_set]

/-! ## C1 — transmit error cases -/

/-- C1: `transmit(buf, frame_len)` returns `Err(BUSY)` with the
caller's buffer handed back whenever the `tx_buf` slot is occupied or
the `transmitting` flag is set; otherwise, when
`PSDU_OFFSET + frame_len ≥ buf.len()`, it returns `Err(SIZE)` with the
buffer handed back; in both error cases the engine state is returned
unchanged. -/
theorem transmit_error_cases (s : Radio) (buf : List Nat) (frame_len : Nat) :
    ((s.tx_buf.isSome = true ∨ s.transmitting = true) →
      s.transmit buf frame_len = (.error (.BUSY, buf), s)) ∧
    (s.tx_buf = none → s.transmitting = false →
      PSDU_OFFSET + frame_len ≥ buf.length →
      s.transmit buf frame_len = (.error (.SIZE, buf), s)) := by
  constructor
  · intro h
    have hc : (s.tx_buf.isSome || s.transmitting) = true := by
      rcases h with h | h <;> simp [h]
    simp [Radio.transmit, hc]
  · intro h1 h2 h3
    have hc : (s.tx_buf.isSome || s.transmitting) = false := by
      simp [h1, h2]
    simp [Radio.transmit, hc, h3]

/-- Witness for C1: a busy engine rejects with BUSY, and a fresh engine
rejects an oversized frame with SIZE, both handing the buffer back. -/
theorem transmit_error_cases_witness :
    Radio.transmit { Radio.new with transmitting := true } [0, 0, 0] 0 =
      (.error (.BUSY, [0, 0, 0]), { Radio.new with transmitting := true }) ∧
    Radio.transmit Radio.new [0, 0, 0] 5 =
      (.error (.SIZE, [0, 0, 0]), Radio.new) :=
  ⟨(transmit_error_cases _ _ _).1 (Or.inr rfl),
   (transmit_error_cases _ _ _).2 rfl rfl (by decide)⟩

/-! ## C2 — transmit success effects -/

set_option maxRecDepth 4000 in
/-- C2 counterexample: the PHY length byte is written with the Rust
cast `(frame_len + radio::MFR_SIZE) as u8`.  For a 300-byte buffer and
`frame_len = 254` the call succeeds, but the stored length byte is
`(254 + 2) % 256 = 0`, not `frame_len + MFR_SIZE = 256` as the claim
states. -/
theorem transmit_length_byte_truncates :
    (Radio.transmit Radio.new (List.replicate 300 0) 254).1 = Except.ok () ∧
    ((Radio.transmit Radio.new (List.replicate 300 0) 254).2.tx_buf.getD
        []).getD MIMIC_PSDU_OFFSET 0 = 0 ∧
    254 + MFR_SIZE = 256 ∧ (0 : Nat) ≠ 256 := by
  refine ⟨rfl, rfl, rfl, by decide⟩

/-- C2 (amended): on a `transmit` call that passes both guards, the
byte at `MIMIC_PSDU_OFFSET` of the stored buffer is
`(frame_len + MFR_SIZE) mod 256` (the `as u8` cast), the buffer lands
in the `tx_buf` slot, `transmitting` becomes true, `cca_count` resets
to 0, `cca_be` resets to `MIN_BE = 3`, and the call returns Ok. -/
theorem transmit_success_effects (s : Radio) (buf : List Nat) (frame_len : Nat)
    (hbuf : s.tx_buf = none) (htr : s.transmitting = false)
    (hsz : PSDU_OFFSET + frame_len < buf.length) :
    ∃ s2,
      s.transmit buf frame_len = (.ok (), s2) ∧
      s2.tx_buf = some (buf.set MIMIC_PSDU_OFFSET ((frame_len + MFR_SIZE) % 256)) ∧
      s2.transmitting = true ∧
      s2.cca_count = 0 ∧
      s2.cca_be = IEEE802154_MIN_BE ∧
      (s2.tx_buf.getD []).getD MIMIC_PSDU_OFFSET 0 = (frame_len + MFR_SIZE) % 256 := by
  have hc : (s.tx_buf.isSome || s.transmitting) = false := by simp [hbuf, htr]
  have h2 : ¬ buf.length ≤ PSDU_OFFSET + frame_len := Nat.not_le.mpr hsz
  have hlb : MIMIC_PSDU_OFFSET < buf.length := by
    have h3 : 2 + frame_len < buf.length := hsz
    show (1 : Nat) < buf.length
    omega
  refine ⟨Radio.radio_reinit
      { s with
        tx_buf := some (buf.set MIMIC_PSDU_OFFSET ((frame_len + MFR_SIZE) % 256))
        transmitting := true
        cca_count := 0
        cca_be := IEEE802154_MIN_BE }, ?_, rfl, rfl, rfl, rfl, ?_⟩
  · simp [Radio.transmit, hc, h2]
  · show (buf.set MIMIC_PSDU_OFFSET ((frame_len + MFR_SIZE) % 256)).getD
        MIMIC_PSDU_OFFSET 0 = (frame_len + MFR_SIZE) % 256
    exact getD_set_self buf MIMIC_PSDU_OFFSET _ hlb

/-- Witness for C2 (amended): a 10-byte frame in a 260-byte buffer
stores length byte 12 and primes the CSMA state. -/
theorem transmit_success_effects_witness :
    ∃ s2,
      Radio.transmit Radio.new (List.replicate 260 0) 10 = (.ok (), s2) ∧
      s2.tx_buf = some ((List.replicate 260 0).set MIMIC_PSDU_OFFSET ((10 + MFR_SIZE) % 256)) ∧
      s2.transmitting = true ∧
      s2.cca_count = 0 ∧
      s2.cca_be = IEEE802154_MIN_BE ∧
      (s2.tx_buf.getD []).getD MIMIC_PSDU_OFFSET 0 = (10 + MFR_SIZE) % 256 :=
  transmit_success_effects Radio.new (List.replicate 260 0) 10 rfl rfl
    (by rw [List.length_replicate]; decide)

/-! ## C3 — CSMA exhaustion -/

set_option maxRecDepth 4000 in
/-- C3 counterexample: starting from a successful transmit
(`cca_count = 0`), four CCABUSY events produce no `send_done` callback
at all — each takes the backoff branch — and `transmitting` is still
set, contrary to the claim that `send_done(.., Err(BUSY))` fires after
exactly `MAX_POLLING_ATTEMPTS = 4` CCABUSY events. -/
theorem ccabusy_no_send_done_after_four_events :
    (Radio.ccabusySteps 4 (Radio.transmit Radio.new (List.replicate 10 0) 3).2).map
      (fun p => (p.2, p.1.transmitting)) = some ([], true) := by
  rfl

/-- C3 (amended): starting from a successful transmit
(`cca_count = 0`), on a peripheral that latches CCABUSY on every
attempt, the first four CCABUSY events each take the backoff branch
(no callback), and the fifth CCABUSY event delivers
`send_done(buf, acked = false, Err(BUSY))`; when it fires,
`transmitting` has been reset to false and the buffer has left the
engine's `tx_buf` slot. -/
theorem ccabusy_send_done_on_fifth_event (s : Radio) (buf : List Nat)
    (hc : s.cca_count = 0) (ht : s.transmitting = true)
    (hb : s.tx_buf = some buf) :
    ∃ s5, Radio.ccabusySteps 5 s =
        some (s5, [Callback.send_done buf false (.error .BUSY)]) ∧
      s5.transmitting = false ∧ s5.tx_buf = none ∧
      ∀ k, k ≤ 4 → ∃ sk, Radio.ccabusySteps k s = some (sk, []) := by
  obtain ⟨tb, rb, cc, be, rn, ch, tr, fr⟩ := s
  simp only at hc ht hb
  subst hc ht hb
  refine ⟨_, rfl, rfl, rfl, ?_⟩
  intro k hk
  interval_cases k <;> exact ⟨_, rfl⟩

/-- Witness for C3 (amended): the concrete run from a fresh engine
after a successful 3-byte transmit. -/
theorem ccabusy_send_done_on_fifth_event_witness :
    ∃ s5, Radio.ccabusySteps 5 (Radio.transmit Radio.new (List.replicate 10 0) 3).2 =
        some (s5,
          [Callback.send_done ((List.replicate 10 0).set MIMIC_PSDU_OFFSET
            ((3 + MFR_SIZE) % 256)) false (.error .BUSY)]) ∧
      s5.transmitting = false ∧ s5.tx_buf = none ∧
      ∀ k, k ≤ 4 → ∃ sk,
        Radio.ccabusySteps k (Radio.transmit Radio.new (List.replicate 10 0) 3).2 =
          some (sk, []) :=
  ccabusy_send_done_on_fifth_event _ _ rfl rfl rfl

/-! ## C4 — the backoff exponent is not clamped -/

/-- C4 counterexample: after three CCABUSY events following a
successful transmit, `cca_be` is 6, strictly above
`IEEE802154_MAX_BE = 5` — the code increments the exponent without any
clamp (the `IEEE802154_MAX_BE` constant is declared but never used). -/
theorem cca_be_exceeds_max_be :
    (Radio.ccabusySteps 3 (Radio.transmit Radio.new (List.replicate 10 0) 3).2).map
      (fun p => p.1.cca_be) = some 6 ∧ IEEE802154_MAX_BE < 6 := by
  exact ⟨rfl, by decide⟩

/-- C4 (amended): the backoff exponent is incremented on every retry
with no clamp: across the CCABUSY events following a transmit (which
sets `cca_be = MIN_BE = 3`), the successive values of `cca_be` are
4, 5, 6, 7 — bounded by `MIN_BE + MAX_POLLING_ATTEMPTS = 7`, which
exceeds `MAX_BE = 5` — and every alarm delay is drawn from a window of
at most `2 ^ cca_be − 1 ≤ 2 ^ 7 − 1` backoff periods. -/
theorem cca_be_unclamped_bound (s : Radio) (buf : List Nat)
    (hc : s.cca_count = 0) (hbe : s.cca_be = IEEE802154_MIN_BE)
    (ht : s.transmitting = true) (hb : s.tx_buf = some buf) :
    (∀ k, k ≤ IEEE802154_MAX_POLLING_ATTEMPTS → ∃ sk,
        Radio.ccabusySteps k s = some (sk, []) ∧
        sk.cca_be = IEEE802154_MIN_BE + k ∧
        sk.cca_be ≤ IEEE802154_MIN_BE + IEEE802154_MAX_POLLING_ATTEMPTS) ∧
    (∀ t s2 cb d, Radio.ccabusyEvent t = some (s2, cb, some d) →
        s2.cca_be = t.cca_be + 1 ∧ d < 2 ^ s2.cca_be) ∧
    ¬ IEEE802154_MIN_BE + IEEE802154_MAX_POLLING_ATTEMPTS ≤ IEEE802154_MAX_BE := by
  refine ⟨?_, ?_, by decide⟩
  · obtain ⟨tb, rb, cc, be, rn, ch, tr, fr⟩ := s
    simp only at hc hbe ht hb
    subst hc hbe ht hb
    intro k hk
    have hk4 : k ≤ 4 := hk
    interval_cases k <;> refine ⟨_, rfl, rfl, ?_⟩ <;>
      norm_num [IEEE802154_MIN_BE, IEEE802154_MAX_POLLING_ATTEMPTS]
  · intro t s2 cb d h
    unfold Radio.ccabusyEvent at h
    split at h
    · simp only [Radio.random_nonce_step, Option.some.injEq, Prod.mk.injEq] at h
      obtain ⟨h1, _, h3⟩ := h
      subst h1
      refine ⟨rfl, ?_⟩
      have hle : d ≤ (1 <<< (t.cca_be + 1)) - 1 := by
        rw [← h3]; exact Nat.and_le_right
      have hpow : (1 : Nat) <<< (t.cca_be + 1) = 2 ^ (t.cca_be + 1) := by
        rw [Nat.shiftLeft_eq, one_mul]
      show d < 2 ^ (t.cca_be + 1)
      rw [hpow] at hle
      have : (0 : Nat) < 2 ^ (t.cca_be + 1) := Nat.pos_pow_of_pos _ (by decide)
      omega
    · split at h
      · simp only [Option.some.injEq, Prod.mk.injEq] at h
        exact absurd h.2.2 (by simp)
      · exact absurd h (by simp)

/-- Witness for C4 (amended): the concrete run from a fresh engine
after a successful 3-byte transmit. -/
theorem cca_be_unclamped_bound_witness :
    (∀ k, k ≤ IEEE802154_MAX_POLLING_ATTEMPTS → ∃ sk,
        Radio.ccabusySteps k (Radio.transmit Radio.new (List.replicate 10 0) 3).2 =
          some (sk, []) ∧
        sk.cca_be = IEEE802154_MIN_BE + k ∧
        sk.cca_be ≤ IEEE802154_MIN_BE + IEEE802154_MAX_POLLING_ATTEMPTS) ∧
    (∀ t s2 cb d, Radio.ccabusyEvent t = some (s2, cb, some d) →
        s2.cca_be = t.cca_be + 1 ∧ d < 2 ^ s2.cca_be) ∧
    ¬ IEEE802154_MIN_BE + IEEE802154_MAX_POLLING_ATTEMPTS ≤ IEEE802154_MAX_BE :=
  cca_be_unclamped_bound _ _ rfl rfl rfl rfl

/-! ## C5 — END event, RX family -/

/-- C5: on an END event whose read-back peripheral state is in the RX
family (RXRU, RXIDLE, RXDISABLE, RX), the engine computes `frame_len`
as the byte at `MIMIC_PSDU_OFFSET` of the RX buffer minus
`MFR_SIZE = 2`, and invokes `receive(buf, frame_len, crc_ok, result)`
with `result = Ok(())` exactly when the CRCSTATUS bit (bit 0) is set
and `Err(FAIL)` otherwise. -/
theorem end_event_rx_family (s : Radio) (rbuf : List Nat) (stateReg crcReg : Nat)
    (hst : stateReg = RADIO_STATE_RXRU ∨ stateReg = RADIO_STATE_RXIDLE ∨
      stateReg = RADIO_STATE_RXDISABLE ∨ stateReg = RADIO_STATE_RX)
    (hb : s.rx_buf = some rbuf)
    (hlen : MIMIC_PSDU_OFFSET < rbuf.length)
    (hmfr : MFR_SIZE ≤ rbuf.getD MIMIC_PSDU_OFFSET 0) :
    ∃ s2, s.endEvent stateReg crcReg = some (s2,
      some (.receive rbuf (rbuf.getD MIMIC_PSDU_OFFSET 0 - MFR_SIZE)
        (decide (crcReg = 1))
        (if crcReg % 2 = 1 then .ok () else .error .FAIL))) := by
  have hmfr2 := hmfr
  rw [List.getD_eq_getElem _ 0 hlen] at hmfr2
  rcases hst with h | h | h | h <;> subst h <;>
    simp [Radio.endEvent, RADIO_STATE_RXRU, RADIO_STATE_RXIDLE,
      RADIO_STATE_RXDISABLE, RADIO_STATE_RX, RADIO_STATE_TXRU,
      RADIO_STATE_TXIDLE, RADIO_STATE_TXDISABLE, RADIO_STATE_TX,
      hb, hlen, rxFrameLen, hmfr2, List.getD_eq_getElem]

/-- Witness for C5: a received frame with length byte 17 and CRCSTATUS
set is delivered as `receive(buf, 15, true, Ok(()))`. -/
theorem end_event_rx_family_witness :
    ∃ s2, Radio.endEvent { Radio.new with rx_buf := some [0, 17, 0] }
        RADIO_STATE_RX 1 = some (s2,
      some (.receive [0, 17, 0] ([0, 17, 0].getD MIMIC_PSDU_OFFSET 0 - MFR_SIZE)
        (decide ((1 : Nat) = 1))
        (if (1 : Nat) % 2 = 1 then .ok () else .error .FAIL))) :=
  end_event_rx_family _ [0, 17, 0] RADIO_STATE_RX 1
    (Or.inr (Or.inr (Or.inr rfl))) rfl (by decide) (by decide)

/-! ## C6 — END event, TX family -/

/-- C6: on an END event whose read-back peripheral state is in the TX
family (TXRU, TXIDLE, TXDISABLE, TX), the engine clears `transmitting`
and calls `send_done(buf, acked = false, Ok(()))` — the result is Ok
regardless of the CRCSTATUS register value (the branch shadows the
CRC-derived result), and `acked` is always false. -/
theorem end_event_tx_family (s : Radio) (tbuf : List Nat) (stateReg crcReg : Nat)
    (hst : stateReg = RADIO_STATE_TXRU ∨ stateReg = RADIO_STATE_TXIDLE ∨
      stateReg = RADIO_STATE_TXDISABLE ∨ stateReg = RADIO_STATE_TX)
    (hb : s.tx_buf = some tbuf) :
    ∃ s2, s.endEvent stateReg crcReg =
        some (s2, some (.send_done tbuf false (.ok ()))) ∧
      s2.transmitting = false := by
  rcases hst with h | h | h | h <;> subst h <;>
    simp [Radio.endEvent, RADIO_STATE_TXRU, RADIO_STATE_TXIDLE,
      RADIO_STATE_TXDISABLE, RADIO_STATE_TX, hb, Radio.radio_reinit,
      Radio.ieee802154_set_channel_freq]

/-- Witness for C6: a completed transmission reports
`send_done(buf, false, Ok(()))` even with CRCSTATUS = 0. -/
theorem end_event_tx_family_witness :
    ∃ s2, Radio.endEvent { Radio.new with tx_buf := some [0, 5, 0], transmitting := true }
        RADIO_STATE_TXIDLE 0 = some (s2, some (.send_done [0, 5, 0] false (.ok ()))) ∧
      s2.transmitting = false :=
  end_event_tx_family _ [0, 5, 0] RADIO_STATE_TXIDLE 0 (Or.inr (Or.inl rfl)) rfl

/-! ## C7 — channel-to-frequency mathematics -/

/-- C7: for every channel index k in 11..26, `try_from` yields a
channel whose discriminant — the value written into the FREQUENCY
register by `ieee802154_set_channel_freq` — equals `5·(k − 11) + 5`,
and `get_channel` returns k for the stored channel. -/
theorem channel_frequency_math (s : Radio) (k : Nat)
    (h1 : 11 ≤ k) (h2 : k ≤ 26) :
    ∃ c, RadioChannel.tryFrom k = some c ∧
      (s.ieee802154_set_channel_freq c).frequency = 5 * (k - 11) + 5 ∧
      Radio.get_channel { s with channel := c } = k := by
  interval_cases k <;> exact ⟨_, rfl, rfl, rfl⟩

/-- Witness for C7: channel 15 programs FREQUENCY = 25 and reads back
as channel 15. -/
theorem channel_frequency_math_witness :
    ∃ c, RadioChannel.tryFrom 15 = some c ∧
      (Radio.new.ieee802154_set_channel_freq c).frequency = 5 * (15 - 11) + 5 ∧
      Radio.get_channel { Radio.new with channel := c } = 15 :=
  channel_frequency_math Radio.new 15 (by decide) (by decide)

/-! ## C8 — set_channel validation and staging -/

/-- C8: `set_channel(k)` returns Ok and stores the channel exactly
when k is in 11..26, and returns `Err(NotSupported)` leaving the
stored channel unchanged for every other `u8` value; the FREQUENCY
register is untouched by `set_channel` itself, and the staged value is
programmed by the next `config_commit` (or initialisation). -/
theorem set_channel_spec (s : Radio) (k : Nat) (hk : k < 256) :
    (11 ≤ k ∧ k ≤ 26 →
      ∃ c, RadioChannel.tryFrom k = some c ∧
        s.set_channel k = (.ok (), { s with channel := c }) ∧
        ({ s with channel := c } : Radio).frequency = s.frequency ∧
        (Radio.config_commit { s with channel := c }).frequency = c.discriminant) ∧
    (¬(11 ≤ k ∧ k ≤ 26) → s.set_channel k = (.error .NOSUPPORT, s)) := by
  constructor
  · rintro ⟨h1, h2⟩
    interval_cases k <;> exact ⟨_, rfl, rfl, rfl, rfl⟩
  · intro hn
    have hnone := tryFrom_eq_none_of_not_range k hk hn
    simp [Radio.set_channel, hnone]

/-- Witness for C8: `set_channel(26)` stages channel 26 whose commit
programs FREQUENCY = 80, and `set_channel(10)` is rejected leaving the
state unchanged. -/
theorem set_channel_spec_witness :
    (∃ c, RadioChannel.tryFrom 26 = some c ∧
        Radio.set_channel Radio.new 26 = (.ok (), { Radio.new with channel := c }) ∧
        ({ Radio.new with channel := c } : Radio).frequency = Radio.new.frequency ∧
        (Radio.config_commit { Radio.new with channel := c }).frequency =
          c.discriminant) ∧
    Radio.set_channel Radio.new 10 = (.error .NOSUPPORT, Radio.new) :=
  ⟨(set_channel_spec Radio.new 26 (by decide)).1 (by decide),
   (set_channel_spec Radio.new 10 (by decide)).2 (by decide)⟩

/-! ## C9 — the xorshift pseudo-random generator -/

/-- C9: `random_nonce()` applies the 32-bit xorshift
`x ^= x << 13; x ^= x >> 17; x ^= x << 5` with wrapping arithmetic,
stores the new value and returns it (the returned value always equals
the updated state), and the output sequence is a deterministic
function of the seed: from the construction-time seed 0xDEADBEEF the
first three outputs are exactly 0x477D20B7, 0x8E1D9142, 0xBA8C2458. -/
theorem random_nonce_xorshift :
    Radio.new.random_nonce = 0xDEADBEEF ∧
    (Radio.new.random_nonce_step).1 = 0x477D20B7 ∧
    ((Radio.new.random_nonce_step).2.random_nonce_step).1 = 0x8E1D9142 ∧
    (((Radio.new.random_nonce_step).2.random_nonce_step).2.random_nonce_step).1 =
      0xBA8C2458 ∧
    ∀ s : Radio, (s.random_nonce_step).2.random_nonce = (s.random_nonce_step).1 :=
  ⟨rfl, by decide, by decide, by decide, fun _ => rfl⟩

/-! ## C10 — the unguarded frame-length subtraction -/

/-- C10: the RX-family frame length is `rx_buf[MIMIC_PSDU_OFFSET]`
minus `MFR_SIZE` by an unguarded subtraction: every length byte of at
least `MFR_SIZE = 2` subtracts cleanly to `byte − 2`, while length
bytes 0 and 1 underflow (modelled as `none`), and an END event over a
buffer with length byte 1 indeed reaches that underflow. -/
theorem rx_frame_len_underflow :
    (∀ b, MFR_SIZE ≤ b → rxFrameLen b = some (b - MFR_SIZE)) ∧
    rxFrameLen 0 = none ∧ rxFrameLen 1 = none ∧
    Radio.endEvent { Radio.new with rx_buf := some [0, 1, 0] }
      RADIO_STATE_RX 1 = none :=
  ⟨fun b h => by simp [rxFrameLen, h], by decide, by decide, by decide⟩

/-- Witness for C10: a length byte of 17 yields frame length 15, and a
length byte of 0 underflows. -/
theorem rx_frame_len_underflow_witness :
    rxFrameLen 17 = some 15 ∧ rxFrameLen 0 = none :=
  ⟨rx_frame_len_underflow.1 17 (by decide), rx_frame_len_underflow.2.1⟩

end Nrf52Radio
